import Mathlib

/-!
Verification of the reference-encoding core of the wikibase-api repository
(`wikibase_api/models/reference.py` and its snak-validation helper).

The embedding models:
- JSON serialization as performed by `json.dumps` with default separators
  (item separator ", ", key separator ": ", `ensure_ascii=True`);
- the snak-object dictionaries built by `Reference.add` and passed through
  `Reference.update`;
- the three operations `add`, `update`, `remove` of the `Reference` class,
  each returning the request-parameter descriptor handed to the transport
  (`self.api.post(params)`), or an `InvalidSnakError` when validation fails.

Python `None` is modelled as `Option.none`, a Python exception as the
`Except.error` branch, and the string-keyed parameter dictionaries as
association lists in insertion order (Python dicts preserve insertion order).
-/

/-- Errors raised by the core: `InvalidSnakError` from snak validation. -/
inductive WBError where
  | invalidSnak
  deriving DecidableEq

deriving instance DecidableEq for Except

/-- Modelled from the spec: the repository imports `validate_snak` from
`wikibase_api.utils.validate_value`, whose source file is not present; per
spec section 4.1 it fails with `InvalidSnakError` exactly when the snak type
is "novalue" or "somevalue" and the value is present, or the snak type is
"value" and the value is absent, and it performs no other validation. -/
def validate_snak (value : Option String) (snak_type : String) : Except WBError Unit :=
  if (snak_type = "novalue" ∨ snak_type = "somevalue") ∧ value.isSome then
    .error .invalidSnak
  else if snak_type = "value" ∧ value.isNone then
    .error .invalidSnak
  else
    .ok ()

/-- A JSON-serializable field value of a snak dictionary: a string, or null
(the image of Python `None`). -/
inductive SVal where
  | null
  | str (s : String)
  deriving DecidableEq

/-- Python `None` becomes JSON `null`; a string stays a string. -/
def svalOfOpt : Option String → SVal
  | none => SVal.null
  | some s => SVal.str s

/-- Python truthiness of an optional string: `None` and `""` are falsy. -/
def truthyStr : Option String → Bool
  | none => false
  | some s => s ≠ ""

/-- Python `sep.join(xs)`. -/
def pyJoin (sep : String) : List String → String
  | [] => ""
  | [x] => x
  | x :: xs => x ++ sep ++ pyJoin sep xs

/-- Lower-case hexadecimal digit, as produced by the `json` module. -/
def hexDigit (n : Nat) : Char :=
  if n < 10 then Char.ofNat (48 + n) else Char.ofNat (87 + n)

/-- A `\uXXXX` escape with four lower-case hex digits. -/
def uEscape4 (n : Nat) : String :=
  String.mk ['\\', 'u', hexDigit (n / 4096 % 16), hexDigit (n / 256 % 16),
             hexDigit (n / 16 % 16), hexDigit (n % 16)]

/-- Escape of one character under `json.dumps` defaults (`ensure_ascii=True`):
quote, backslash and the five short control escapes get two-character forms,
every other character outside U+0020..U+007E becomes `\uXXXX` (a surrogate
pair beyond U+FFFF), and the rest pass through unchanged. -/
def escapeChar (c : Char) : String :=
  if c = '"' then String.mk ['\\', '"']
  else if c = '\\' then String.mk ['\\', '\\']
  else if c = '\n' then String.mk ['\\', 'n']
  else if c = '\r' then String.mk ['\\', 'r']
  else if c = '\t' then String.mk ['\\', 't']
  else if c = Char.ofNat 8 then String.mk ['\\', 'b']
  else if c = Char.ofNat 12 then String.mk ['\\', 'f']
  else if c.toNat < 32 ∨ c.toNat > 126 then
    if c.toNat < 65536 then uEscape4 c.toNat
    else uEscape4 (55296 + (c.toNat - 65536) / 1024) ++
         uEscape4 (56320 + (c.toNat - 65536) % 1024)
  else String.singleton c

/-- `json.dumps` of a string: quoted, with each character escaped. -/
def dumpsStr (s : String) : String :=
  "\"" ++ String.join (s.data.map escapeChar) ++ "\""

/-- `json.dumps` of a string-or-null field value. -/
def dumpsSVal : SVal → String
  | SVal.null => "null"
  | SVal.str s => dumpsStr s

/-- A snak dictionary: string keys paired with string-or-null values, in
insertion order. -/
abbrev SnakObj : Type := List (String × SVal)

/-- `json.dumps` of a snak dictionary. -/
def dumpsSnakObj (o : SnakObj) : String :=
  "\x7b" ++ pyJoin ", " (o.map fun kv => dumpsStr kv.1 ++ ": " ++ dumpsSVal kv.2) ++ "\x7d"

/-- `json.dumps` of a list of snak dictionaries. -/
def dumpsSnakArr (l : List SnakObj) : String :=
  "[" ++ pyJoin ", " (l.map dumpsSnakObj) ++ "]"

/-- `json.dumps` of a grouping dictionary mapping a property identifier to
its list of snak dictionaries, in insertion order. -/
def dumpsGroup (g : List (String × List SnakObj)) : String :=
  "\x7b" ++ pyJoin ", " (g.map fun kv => dumpsStr kv.1 ++ ": " ++ dumpsSnakArr kv.2) ++ "\x7d"

/-- `json.dumps` of a list of strings (the snaks-order list). -/
def dumpsStrList (l : List String) : String :=
  "[" ++ pyJoin ", " (l.map dumpsStr) ++ "]"

/-- The snak dictionary built by `Reference.add`:
`snak = ("snaktype": snak_type, "property": property_id, "datavalue": value)`,
then `snak["datatype"] = data_type` only under `if data_type:` (Python
truthiness), which appends the key at the end. -/
def mkAddSnak (property_id : String) (value : Option String)
    (data_type : Option String) (snak_type : String) : SnakObj :=
  let snak : SnakObj :=
    [("snaktype", SVal.str snak_type), ("property", SVal.str property_id),
     ("datavalue", svalOfOpt value)]
  if truthyStr data_type then
    snak ++ [("datatype", SVal.str (match data_type with | some s => s | none => ""))]
  else
    snak

/-- The request parameters of `Reference.add` once validation has passed:
action, statement and the encoded one-property snak group, plus
`"index" = str(index)` appended when `index` is not `None`. -/
def addParams (claim_id property_id : String) (value : Option String)
    (data_type : Option String) (snak_type : String) (index : Option Int) :
    List (String × String) :=
  let snak_encoded :=
    dumpsGroup [(property_id, [mkAddSnak property_id value data_type snak_type])]
  let params := [("action", "wbsetreference"), ("statement", claim_id),
                 ("snaks", snak_encoded)]
  match index with
  | some i => params ++ [("index", toString i)]
  | none => params

/-- `Reference.add`: validates the single snak, then builds the request
descriptor; a validation error propagates and no descriptor is produced. -/
def Reference.add (claim_id property_id : String) (value : Option String)
    (data_type : Option String) (snak_type : String) (index : Option Int) :
    Except WBError (List (String × String)) :=
  match validate_snak value snak_type with
  | .error e => .error e
  | .ok _ => .ok (addParams claim_id property_id value data_type snak_type index)

/-- An input snak of `Reference.update`: a dictionary holding "property",
"datatype", "datavalue" and "snaktype" (the keys named by the docstring). -/
structure Snak where
  property : String
  snaktype : String
  datavalue : Option String
  datatype : Option String
  deriving DecidableEq

/-- The dictionary form of an update input snak, with the keys in the order
the docstring lists them; it is passed through verbatim to `json.dumps`. -/
def snakToObj (s : Snak) : SnakObj :=
  [("property", SVal.str s.property), ("datatype", svalOfOpt s.datatype),
   ("datavalue", svalOfOpt s.datavalue), ("snaktype", SVal.str s.snaktype)]

/-- `snak_dict[k].append(s)` on a `defaultdict(lambda: [])`: appends to the
existing group, or inserts a new one-element group at the end on first
access of the key. -/
def dictAppend (d : List (String × List Snak)) (k : String) (s : Snak) :
    List (String × List Snak) :=
  match d with
  | [] => [(k, [s])]
  | (k2, l) :: rest =>
      if k2 = k then (k2, l ++ [s]) :: rest else (k2, l) :: dictAppend rest k s

/-- The loop of `Reference.update`: for each snak, validate it, append it to
`snak_dict[snak["property"]]`, and append the property to `snaks_order` when
`len(snaks_order) == 0 or snaks_order[-1] != snak["property"]`. -/
def updateLoop : List Snak → List (String × List Snak) → List String →
    Except WBError (List (String × List Snak) × List String)
  | [], snak_dict, snaks_order => .ok (snak_dict, snaks_order)
  | snak :: rest, snak_dict, snaks_order =>
    match validate_snak snak.datavalue snak.snaktype with
    | .error e => .error e
    | .ok _ =>
        updateLoop rest (dictAppend snak_dict snak.property snak)
          (if snaks_order.length = 0 ∨ snaks_order.getLast? ≠ some snak.property
           then snaks_order ++ [snak.property] else snaks_order)

/-- The request parameters of `Reference.update` once the loop has finished:
action, statement, reference, the encoded group and the encoded order list,
plus `"index" = str(index)` appended when `index` is not `None`. -/
def updateParams (claim_id reference_id : String)
    (snak_dict : List (String × List Snak)) (snaks_order : List String)
    (index : Option Int) : List (String × String) :=
  let params := [("action", "wbsetreference"), ("statement", claim_id),
                 ("reference", reference_id),
                 ("snaks", dumpsGroup (snak_dict.map fun kv => (kv.1, kv.2.map snakToObj))),
                 ("snaks-order", dumpsStrList snaks_order)]
  match index with
  | some i => params ++ [("index", toString i)]
  | none => params

/-- `Reference.update`: runs the grouping loop (which validates every snak),
then builds the request descriptor; a validation error propagates and no
descriptor is produced. -/
def Reference.update (claim_id reference_id : String) (snaks : List Snak)
    (index : Option Int) : Except WBError (List (String × String)) :=
  match updateLoop snaks [] [] with
  | .error e => .error e
  | .ok (snak_dict, snaks_order) =>
      .ok (updateParams claim_id reference_id snak_dict snaks_order index)

/-- The argument of `Reference.remove`: a single string or a list of strings,
distinguished by `isinstance(reference_ids, str)`. -/
inductive StrOrList where
  | str (s : String)
  | list (l : List String)
  deriving DecidableEq

/-- `Reference.remove`: a single identifier passes through unchanged, a list
is joined with "|", and the descriptor carries action, statement and the
joined identifiers. Nothing can fail. -/
def Reference.remove (claim_id : String) (reference_ids : StrOrList) :
    List (String × String) :=
  let ids_encoded :=
    match reference_ids with
    | StrOrList.str s => s
    | StrOrList.list l => pyJoin "|" l
  [("action", "wbremovereferences"), ("statement", claim_id),
   ("references", ids_encoded)]

/-- The property sequence with runs of consecutive duplicates collapsed,
threaded on the previously kept element; `consecDedup none l` is the order
list the update loop accumulates over property sequence `l`. -/
def consecDedup : Option String → List String → List String
  | _, [] => []
  | last, p :: ps =>
      if last = some p then consecDedup last ps
      else p :: consecDedup (some p) ps

/-- First snak of the spec's grouping example: property P1, value a. -/
def exSnak1 : Snak := ⟨"P1", "value", some "a", none⟩

/-- Second snak of the spec's grouping example: property P2, value b. -/
def exSnak2 : Snak := ⟨"P2", "value", some "b", none⟩

/-- Third snak of the spec's grouping example: property P1 again, value c. -/
def exSnak3 : Snak := ⟨"P1", "value", some "c", none⟩

/-- Claim C3: `validate_snak` fails with `InvalidSnakError` exactly when the
snak type is "novalue" or "somevalue" and the value is present, or the snak
type is "value" and the value is absent; any other combination succeeds, and
no further validation of the payload is performed. -/
theorem C3_validate_snak_iff (value : Option String) (snak_type : String) :
    validate_snak value snak_type = .error .invalidSnak ↔
      ((snak_type = "novalue" ∨ snak_type = "somevalue") ∧ value.isSome = true) ∨
        (snak_type = "value" ∧ value.isNone = true) := by
  unfold validate_snak
  split
  · rename_i h
    exact iff_of_true rfl (Or.inl h)
  · split
    · rename_i h1 h2
      exact iff_of_true rfl (Or.inr h2)
    · rename_i h1 h2
      exact iff_of_false (fun h => Except.noConfusion h)
        (fun h => h.elim (fun h3 => h1 h3) (fun h3 => h2 h3))

/-- Claim C2 counterexample: `add("Q2$ABC", "P999", None, None,
snak_type="novalue")` succeeds, but the snak dictionary it serializes does
contain a "datavalue" key (bound to null), contrary to the claim that no
such key is present. -/
theorem C2_counterexample :
    Reference.add "Q2$ABC" "P999" none none "novalue" none =
      .ok [("action", "wbsetreference"), ("statement", "Q2$ABC"),
           ("snaks", dumpsGroup [("P999", [mkAddSnak "P999" none none "novalue"])])] ∧
    List.lookup "datavalue" (mkAddSnak "P999" none none "novalue") ≠ none := by
  exact ⟨rfl, by decide⟩

/-- Claim C2 (amended): the call succeeds and the serialized snak object has
no "datatype" key, but it does carry a "datavalue" key whose value is null,
because `add` always stores the value (here `None`) under "datavalue". -/
theorem C2_novalue_add :
    Reference.add "Q2$ABC" "P999" none none "novalue" none =
      .ok [("action", "wbsetreference"), ("statement", "Q2$ABC"),
           ("snaks", dumpsGroup [("P999", [mkAddSnak "P999" none none "novalue"])])] ∧
    mkAddSnak "P999" none none "novalue" =
      [("snaktype", SVal.str "novalue"), ("property", SVal.str "P999"),
       ("datavalue", SVal.null)] ∧
    List.lookup "datatype" (mkAddSnak "P999" none none "novalue") = none ∧
    List.lookup "datavalue" (mkAddSnak "P999" none none "novalue") = some SVal.null :=
  ⟨rfl, rfl, rfl, rfl⟩

/-- Claim C5: `remove` treats a single identifier and its singleton list
identically, and joins a list of identifiers with the "|" delimiter into the
"references" field; in particular `["H1", "H2"]` gives "H1|H2". -/
theorem C5_remove_join :
    (∀ claim_id s, Reference.remove claim_id (StrOrList.str s) =
        Reference.remove claim_id (StrOrList.list [s])) ∧
    (∀ claim_id s, List.lookup "references"
        (Reference.remove claim_id (StrOrList.str s)) = some s) ∧
    (∀ claim_id ids, List.lookup "references"
        (Reference.remove claim_id (StrOrList.list ids)) = some (pyJoin "|" ids)) ∧
    List.lookup "references"
        (Reference.remove "Q2$ABC" (StrOrList.list ["H1", "H2"])) = some "H1|H2" :=
  ⟨fun _ _ => rfl, fun _ _ => rfl, fun _ _ => rfl, rfl⟩

/-- Claim C6: `add("Q2$ABC", "P854", "https://example.com", "url")` yields a
descriptor with action "wbsetreference", statement "Q2$ABC", and a snaks
payload whose sole entry is keyed by "P854" and holds one snak object with
snaktype "value", property "P854", datavalue "https://example.com" and
datatype "url". -/
theorem C6_add_url_descriptor :
    Reference.add "Q2$ABC" "P854" (some "https://example.com") (some "url") "value" none =
      .ok [("action", "wbsetreference"), ("statement", "Q2$ABC"),
           ("snaks", dumpsGroup
             [("P854", [mkAddSnak "P854" (some "https://example.com") (some "url") "value"])])] ∧
    mkAddSnak "P854" (some "https://example.com") (some "url") "value" =
      [("snaktype", SVal.str "value"), ("property", SVal.str "P854"),
       ("datavalue", SVal.str "https://example.com"), ("datatype", SVal.str "url")] :=
  ⟨rfl, rfl⟩

/-- Claim C8: `update` on an empty snak list succeeds and serializes the
empty group and the empty order list. -/
theorem C8_update_empty (claim_id reference_id : String) :
    Reference.update claim_id reference_id [] none =
      .ok [("action", "wbsetreference"), ("statement", claim_id),
           ("reference", reference_id), ("snaks", "\x7b\x7d"), ("snaks-order", "[]")] :=
  rfl

/-- Claim C10: `remove` on an empty list of identifiers succeeds and builds
the descriptor with action "wbremovereferences" and an empty "references"
field. -/
theorem C10_remove_empty (claim_id : String) :
    Reference.remove claim_id (StrOrList.list []) =
      [("action", "wbremovereferences"), ("statement", claim_id),
       ("references", "")] :=
  rfl

/-- Claim C9: the "datatype" key of the snak built by `add` is present
exactly when the supplied data type is truthy, so it is omitted not only for
`None` but also for the empty string. -/
theorem C9_datatype_falsy :
    (∀ property_id value snak_type, List.lookup "datatype"
        (mkAddSnak property_id value (some "") snak_type) = none) ∧
    (∀ property_id value data_type snak_type,
        (List.lookup "datatype"
          (mkAddSnak property_id value data_type snak_type)).isSome =
            truthyStr data_type) ∧
    Reference.add "Q2$ABC" "P854" (some "x") (some "") "value" none =
      .ok [("action", "wbsetreference"), ("statement", "Q2$ABC"),
           ("snaks", dumpsGroup
             [("P854", [[("snaktype", SVal.str "value"), ("property", SVal.str "P854"),
                         ("datavalue", SVal.str "x")]])])] := by
  refine ⟨fun _ _ _ => rfl, fun pid v dt st => ?_, rfl⟩
  cases dt with
  | none => rfl
  | some s =>
    by_cases hs : s = ""
    · subst hs; rfl
    · have ht : truthyStr (some s) = true := by simp [truthyStr, hs]
      simp only [mkAddSnak, ht, if_true]
      rfl

/-- If some snak of the list fails validation, the update loop stops with
`InvalidSnakError`, whatever the accumulators hold. -/
theorem updateLoop_error (snaks : List Snak) :
    ∀ (d : List (String × List Snak)) (ord : List String),
      (∃ s ∈ snaks, validate_snak s.datavalue s.snaktype = .error .invalidSnak) →
      updateLoop snaks d ord = .error .invalidSnak := by
  induction snaks with
  | nil =>
    intro d ord h
    obtain ⟨s, hs, _⟩ := h
    cases hs
  | cons a rest ih =>
    intro d ord h
    obtain ⟨s, hs, hval⟩ := h
    cases hv : validate_snak a.datavalue a.snaktype with
    | error e =>
      cases e
      simp [updateLoop, hv]
    | ok u =>
      have hsrest : s ∈ rest := by
        cases List.mem_cons.mp hs with
        | inl heq => subst heq; rw [hv] at hval; cases hval
        | inr h2 => exact h2
      simp only [updateLoop, hv]
      exact ih _ _ ⟨s, hsrest, hval⟩

/-- Claim C4: a validation failure makes `add` and `update` abort with the
error itself; no request descriptor is produced (the `.ok` branch carrying
the parameters is never reached). -/
theorem C4_validation_failfast :
    (∀ claim_id property_id value data_type snak_type index,
        validate_snak value snak_type = .error .invalidSnak →
        Reference.add claim_id property_id value data_type snak_type index =
          .error .invalidSnak) ∧
    (∀ claim_id reference_id snaks index,
        (∃ s ∈ snaks, validate_snak s.datavalue s.snaktype = .error .invalidSnak) →
        Reference.update claim_id reference_id snaks index = .error .invalidSnak) := by
  constructor
  · intro cid pid v dt st idx h
    simp [Reference.add, h]
  · intro cid rid snaks idx h
    simp [Reference.update, updateLoop_error snaks [] [] h]

/-- Witness for C4: a concrete novalue snak carrying a value makes `add`
fail, and a concrete value snak without a value makes `update` fail. -/
theorem C4_validation_failfast_witness :
    Reference.add "Q2$ABC" "P999" (some "x") none "novalue" none =
      .error .invalidSnak ∧
    Reference.update "Q2$ABC" "refhash" [Snak.mk "P1" "value" none none] none =
      .error .invalidSnak :=
  ⟨C4_validation_failfast.1 "Q2$ABC" "P999" (some "x") none "novalue" none (by decide),
   C4_validation_failfast.2 "Q2$ABC" "refhash" [Snak.mk "P1" "value" none none] none
     ⟨Snak.mk "P1" "value" none none, by decide, by decide⟩⟩

/-- Claim C7: a provided index is rendered as its decimal string and appended
as the sole extra parameter of `add` and `update`; with no index the
descriptor has no "index" key. -/
theorem C7_index_param :
    (∀ claim_id property_id value data_type snak_type i,
        Reference.add claim_id property_id value data_type snak_type (some i) =
          (Reference.add claim_id property_id value data_type snak_type none).map
            (fun ps => ps ++ [("index", toString i)])) ∧
    (∀ claim_id reference_id snaks i,
        Reference.update claim_id reference_id snaks (some i) =
          (Reference.update claim_id reference_id snaks none).map
            (fun ps => ps ++ [("index", toString i)])) ∧
    (∀ claim_id property_id value data_type snak_type ps,
        Reference.add claim_id property_id value data_type snak_type none = .ok ps →
        List.lookup "index" ps = none) ∧
    (∀ claim_id reference_id snaks ps,
        Reference.update claim_id reference_id snaks none = .ok ps →
        List.lookup "index" ps = none) := by
  refine ⟨fun cid pid v dt st i => ?_, fun cid rid snaks i => ?_,
          fun cid pid v dt st ps h => ?_, fun cid rid snaks ps h => ?_⟩
  · cases hv : validate_snak v st with
    | error e => simp [Reference.add, hv, Except.map]
    | ok u => simp [Reference.add, hv, Except.map, addParams]
  · cases hl : updateLoop snaks [] [] with
    | error e => simp [Reference.update, hl, Except.map]
    | ok r =>
      obtain ⟨d, ord⟩ := r
      simp [Reference.update, hl, Except.map, updateParams]
  · cases hv : validate_snak v st with
    | error e => rw [Reference.add, hv] at h; cases h
    | ok u =>
      rw [Reference.add, hv] at h
      injection h with h2
      subst h2
      rfl
  · cases hl : updateLoop snaks [] [] with
    | error e => rw [Reference.update, hl] at h; cases h
    | ok r =>
      obtain ⟨d, ord⟩ := r
      rw [Reference.update, hl] at h
      injection h with h2
      subst h2
      rfl

/-- Witness for C7: index 0 on a concrete `add` call appends "0", and the
same call without an index has no "index" key. -/
theorem C7_index_param_witness :
    Reference.add "Q2$ABC" "P854" (some "x") none "value" (some 0) =
      (Reference.add "Q2$ABC" "P854" (some "x") none "value" none).map
        (fun ps => ps ++ [("index", toString (0 : Int))]) ∧
    List.lookup "index" (addParams "Q2$ABC" "P854" (some "x") none "value" none) =
      none :=
  ⟨C7_index_param.1 "Q2$ABC" "P854" (some "x") none "value" 0,
   C7_index_param.2.2.1 "Q2$ABC" "P854" (some "x") none "value" _ rfl⟩

/-- The order list accumulated by the update loop extends the accumulator by
the property sequence of the remaining snaks, deduplicated only against the
immediately preceding kept element (starting from the accumulator's last). -/
theorem updateLoop_order_aux (snaks : List Snak) :
    ∀ (d : List (String × List Snak)) (ord : List String)
      (r : List (String × List Snak) × List String),
      updateLoop snaks d ord = .ok r →
      r.2 = ord ++ consecDedup ord.getLast? (snaks.map Snak.property) := by
  induction snaks with
  | nil =>
    intro d ord r h
    simp only [updateLoop] at h
    injection h with h2
    subst h2
    simp [consecDedup]
  | cons a rest ih =>
    intro d ord r h
    simp only [updateLoop] at h
    cases hv : validate_snak a.datavalue a.snaktype with
    | error e => rw [hv] at h; cases h
    | ok u =>
      rw [hv] at h
      by_cases hc : ord.getLast? = some a.property
      · have hne : ¬(ord.length = 0 ∨ ord.getLast? ≠ some a.property) := by
          rintro (h0 | hne)
          · rw [List.length_eq_zero] at h0
            subst h0
            simp at hc
          · exact hne hc
        rw [if_neg hne] at h
        rw [ih _ _ _ h, List.map_cons, hc]
        simp [consecDedup]
      · have hpos : ord.length = 0 ∨ ord.getLast? ≠ some a.property := Or.inr hc
        rw [if_pos hpos] at h
        rw [ih _ _ _ h, List.map_cons]
        have h1 : (ord ++ [a.property]).getLast? = some a.property := by
          rw [List.getLast?_append_cons]
          rfl
        rw [h1]
        simp [consecDedup, hc, List.append_assoc]

/-- On success, the "snaks-order" field of the update descriptor is the
serialization of the input property sequence with consecutive duplicates
collapsed. -/
theorem update_lookup_order (claim_id reference_id : String) (snaks : List Snak)
    (index : Option Int) (ps : List (String × String))
    (h : Reference.update claim_id reference_id snaks index = .ok ps) :
    List.lookup "snaks-order" ps =
      some (dumpsStrList (consecDedup none (snaks.map Snak.property))) := by
  cases hl : updateLoop snaks [] [] with
  | error e => rw [Reference.update, hl] at h; cases h
  | ok r =>
    obtain ⟨d, ord⟩ := r
    rw [Reference.update, hl] at h
    injection h with h2
    subst h2
    have hord := updateLoop_order_aux snaks [] [] (d, ord) hl
    simp only [List.getLast?_nil, List.nil_append] at hord
    rw [hord]
    cases index <;> rfl

/-- Claim C1 counterexample: over the snaks (P1, a), (P2, b), (P1, c) the
update descriptor carries the order list serialization of P1, P2, P1 — P1
appears twice, so the list is not the claimed one-occurrence list P1, P2
even though the group is (P1 -> a, c; P2 -> b) as claimed. -/
theorem C1_counterexample :
    Reference.update "Q2$ABC" "refhash" [exSnak1, exSnak2, exSnak3] none =
      .ok [("action", "wbsetreference"), ("statement", "Q2$ABC"),
           ("reference", "refhash"),
           ("snaks", dumpsGroup [("P1", [snakToObj exSnak1, snakToObj exSnak3]),
                                 ("P2", [snakToObj exSnak2])]),
           ("snaks-order", dumpsStrList ["P1", "P2", "P1"])] ∧
    dumpsStrList ["P1", "P2", "P1"] ≠ dumpsStrList ["P1", "P2"] := by
  exact ⟨rfl, by decide⟩

/-- Claim C1 (amended): the ordered property list deduplicates only
consecutive repeats — a property reappearing non-consecutively is listed
again at each reappearance — so update over the snaks (P1, a), (P2, b),
(P1, c) serializes the group (P1 -> a, c; P2 -> b) and the order list
P1, P2, P1. -/
theorem C1_snaks_order_consec_dedup :
    (∀ claim_id reference_id snaks index ps,
        Reference.update claim_id reference_id snaks index = .ok ps →
        List.lookup "snaks-order" ps =
          some (dumpsStrList (consecDedup none (snaks.map Snak.property)))) ∧
    Reference.update "Q2$ABC" "refhash" [exSnak1, exSnak2, exSnak3] none =
      .ok [("action", "wbsetreference"), ("statement", "Q2$ABC"),
           ("reference", "refhash"),
           ("snaks", dumpsGroup [("P1", [snakToObj exSnak1, snakToObj exSnak3]),
                                 ("P2", [snakToObj exSnak2])]),
           ("snaks-order", dumpsStrList ["P1", "P2", "P1"])] :=
  ⟨update_lookup_order, rfl⟩

/-- Witness for C1 (amended): applying the general order law to the concrete
three-snak example. -/
theorem C1_snaks_order_consec_dedup_witness :
    List.lookup "snaks-order"
        [("action", "wbsetreference"), ("statement", "Q2$ABC"),
         ("reference", "refhash"),
         ("snaks", dumpsGroup [("P1", [snakToObj exSnak1, snakToObj exSnak3]),
                               ("P2", [snakToObj exSnak2])]),
         ("snaks-order", dumpsStrList ["P1", "P2", "P1"])] =
      some (dumpsStrList
        (consecDedup none ([exSnak1, exSnak2, exSnak3].map Snak.property))) :=
  C1_snaks_order_consec_dedup.1 "Q2$ABC" "refhash" [exSnak1, exSnak2, exSnak3]
    none _ rfl
